import Mathlib

/-!
Verification development for the entity-rendering engine of a
container-engine CLI.  The repository's sources under verification are the
task formatter (`NewTaskFormat`, `taskContext` accessors), the checkpoint
formatter (`NewFormat`, `checkpointContext`), and the `service ps` command
(`runPS` option resolution and `createFilter`).  The generic formatter
package (format keys, `Context.Write`, `TruncateID`, `Ellipsis`,
`MarshalJSON`) and the network formatter are not part of the sources; they
are modelled from the specification, whose behaviour is pinned by the
golden tests that are part of the sources.

Machine integers do not occur on any verified path; strings are Lean
`String`s, times are integer seconds, and fallible operations return
`Except`.
-/

namespace CliFmt

/-! ### Formatter primitives (modelled from the spec) -/

/-- Modelled from the spec: the reserved alias selecting the table layout
(`formatter.TableFormatKey`, missing from the sources). -/
def tableFormatKey : String := "table"

/-- Modelled from the spec: the reserved alias selecting the raw layout
(`formatter.RawFormatKey`, missing from the sources). -/
def rawFormatKey : String := "raw"

/-- Modelled from the spec: the quiet default format, ID-only
(`formatter.DefaultQuietFormat`, missing from the sources). -/
def defaultQuietFormat : String := "\x7b\x7b.ID\x7d\x7d"

/-- Modelled from the spec: the short-hash prefix length used by identifier
truncation (the "short-ID prefix length"). -/
def shortIDLength : Nat := 12

/-- Take the first `n` characters of a string (kernel-reducible
counterpart of the library's byte-position-based slicing). -/
def strTake (s : String) (n : Nat) : String := String.mk (s.data.take n)

/-- Join a list of strings with a separator between consecutive
elements. -/
def joinWith (sep : String) : List String → String
  | [] => ""
  | [x] => x
  | x :: rest => x ++ sep ++ joinWith sep rest

/-- Strip leading and trailing spaces (the render context trims the
format with the space cut-set only). -/
def trimSpaces (cs : List Char) : List Char :=
  ((cs.dropWhile fun c => c = ' ').reverse.dropWhile fun c => c = ' ').reverse

/-- Modelled from the spec: `formatter.TruncateID` (missing from the
sources) returns a fixed-length prefix of the full identifier when it is
longer than the short-ID prefix length, and the identifier unchanged
otherwise. -/
def truncateID (id : String) : String :=
  if id.length > shortIDLength then strTake id shortIDLength else id

/-- Modelled from the spec: `formatter.Ellipsis` (missing from the sources)
ellipsizes a string beyond a fixed maximum length: strings at or under
`maxLen` are returned unchanged, longer ones are cut to `maxLen - 1`
characters followed by an ellipsis character. -/
def ellipsis (s : String) (maxLen : Nat) : String :=
  if s.length ≤ maxLen then s else strTake s (maxLen - 1) ++ "…"

/-- Modelled from the spec: `formatter.PrettyPrint` (missing from the
sources) renders a state value for humans by upper-casing its first
letter. -/
def prettyPrint (s : String) : String :=
  match s.data with
  | [] => ""
  | c :: rest => String.mk (c.toUpper :: rest)

/-- Modelled from the spec: the human-relative duration rendering used by
duration fields (`units.HumanDuration`, an external library absent from
the sources), over integer seconds. -/
def humanDuration (seconds : Int) : String :=
  if seconds < 1 then "Less than a second"
  else if seconds = 1 then "1 second"
  else if seconds < 60 then toString seconds ++ " seconds"
  else
    let minutes : Int := seconds / 60
    if minutes = 1 then "About a minute"
    else if minutes < 60 then toString minutes ++ " minutes"
    else
      let hours : Int := (seconds + 1800) / 3600
      if hours = 1 then "About an hour"
      else if hours < 48 then toString hours ++ " hours"
      else if hours < 24 * 7 * 2 then toString (hours / 24) ++ " days"
      else if hours < 24 * 30 * 2 then toString (hours / (24 * 7)) ++ " weeks"
      else if hours < 24 * 365 * 2 then toString (hours / (24 * 30)) ++ " months"
      else toString (seconds / 3600 / 24 / 365) ++ " years"

/-- ASCII lower-casing of a rendered duration (`strings.ToLower`). -/
def asciiToLower (s : String) : String :=
  String.mk (s.data.map Char.toLower)

/-! ### Task data model (from `swarm.Task`, as used by the task formatter) -/

/-- One entry of a task's port status (`swarm.PortConfig`): fields used by
the `Ports` accessor. -/
structure PortConfig where
  protocol : String
  targetPort : Nat
  publishedPort : Nat
deriving DecidableEq

/-- `swarm.PortStatus`. -/
structure PortStatus where
  ports : List PortConfig
deriving DecidableEq

/-- `swarm.TaskStatus`: the fields read by the task accessors.  The
timestamp is in integer seconds. -/
structure TaskStatus where
  timestamp : Int
  state : String
  err : String
  portStatus : PortStatus
deriving DecidableEq

/-- `swarm.Task`: the fields read by the task accessors
(`Spec.ContainerSpec.Image` and other unread fields are omitted). -/
structure SwarmTask where
  id : String
  desiredState : String
  status : TaskStatus
deriving DecidableEq

/-- `taskContext` from the task formatter: wraps one task together with the
truncation flag and the resolved name and node strings. -/
structure TaskCtx where
  trunc : Bool
  task : SwarmTask
  name : String
  node : String
deriving DecidableEq

/-! ### Task formatter (from the sources) -/

/-- `defaultTaskTableFormat` from the task formatter. -/
def defaultTaskTableFormat : String :=
  "table \x7b\x7b.ID\x7d\x7d\t\x7b\x7b.Name\x7d\x7d\t\x7b\x7b.Image\x7d\x7d\t\x7b\x7b.Node\x7d\x7d\t\x7b\x7b.DesiredState\x7d\x7d\t\x7b\x7b.CurrentState\x7d\x7d\t\x7b\x7b.Error\x7d\x7d\t\x7b\x7b.Ports\x7d\x7d"

/-- The raw-layout template returned by `NewTaskFormat` when not quiet
(literal two-character backslash-n sequences, as in the source's raw
string). -/
def rawTaskFormat : String :=
  "id: \x7b\x7b.ID\x7d\x7d\\nname: \x7b\x7b.Name\x7d\x7d\\nimage: \x7b\x7b.Image\x7d\x7d\\nnode: \x7b\x7b.Node\x7d\x7d\\ndesired_state: \x7b\x7b.DesiredState\x7d\x7d\\ncurrent_state: \x7b\x7b.CurrentState\x7d\x7d\\nerror: \x7b\x7b.Error\x7d\x7d\\nports: \x7b\x7b.Ports\x7d\x7d\\n"

/-- The raw-layout template returned by `NewTaskFormat` when quiet. -/
def rawTaskQuietFormat : String := "id: \x7b\x7b.ID\x7d\x7d"

/-- `maxErrLength` from the task formatter. -/
def maxErrLength : Nat := 30

/-- `NewTaskFormat` from the task formatter: resolves a source string and a
quiet flag to a concrete format string. -/
def NewTaskFormat (source : String) (quiet : Bool) : String :=
  if source = tableFormatKey then
    if quiet then defaultQuietFormat else defaultTaskTableFormat
  else if source = rawFormatKey then
    if quiet then rawTaskQuietFormat else rawTaskFormat
  else source

/-- `taskContext.ID`: the task identifier, truncated when the truncation
flag is set. -/
def taskID (c : TaskCtx) : String :=
  if c.trunc then truncateID c.task.id else c.task.id

/-- `taskContext.Name`. -/
def taskName (c : TaskCtx) : String := c.name

/-- `taskContext.Node`. -/
def taskNode (c : TaskCtx) : String := c.node

/-- `taskContext.DesiredState`. -/
def taskDesiredState (c : TaskCtx) : String := prettyPrint c.task.desiredState

/-- `taskContext.CurrentState`.  The source computes the duration with
`time.Since(c.task.Status.Timestamp)`, which reads the ambient clock; in
this pure embedding the ambient clock value at render time is the explicit
argument `now`. -/
def taskCurrentState (now : Int) (c : TaskCtx) : String :=
  prettyPrint c.task.status.state ++ " " ++
    asciiToLower (humanDuration (now - c.task.status.timestamp)) ++ " ago"

/-- `taskContext.Error`: trim (ellipsize when truncating) and quote the
task's error message. -/
def taskError (c : TaskCtx) : String :=
  let taskErr := c.task.status.err
  let taskErr := if c.trunc then ellipsis taskErr maxErrLength else taskErr
  if taskErr.length > 0 then "\"" ++ taskErr ++ "\"" else taskErr

/-- The string rendered for one port entry by `taskContext.Ports`. -/
def portEntry (p : PortConfig) : String :=
  "*:" ++ toString p.publishedPort ++ "->" ++ toString p.targetPort ++ "/" ++ p.protocol

/-- `taskContext.Ports`: the empty string for an empty port list, otherwise
one entry per port in port-status order, comma-joined. -/
def taskPorts (c : TaskCtx) : String :=
  if c.task.status.portStatus.ports = [] then ""
  else joinWith "," (c.task.status.portStatus.ports.map portEntry)

/-! ### Checkpoint formatter (from the sources) -/

/-- `defaultCheckpointFormat` from the checkpoint formatter. -/
def defaultCheckpointFormat : String := "table \x7b\x7b.Name\x7d\x7d"

/-- `checkpoint.Summary`. -/
structure CheckpointSummary where
  name : String
deriving DecidableEq

/-- The checkpoint formatter's `NewFormat`: it takes no quiet flag and maps
only the table alias, returning every other source string verbatim. -/
def checkpointNewFormat (source : String) : String :=
  if source = tableFormatKey then defaultCheckpointFormat else source

/-- `checkpointContext.Name`. -/
def checkpointName (c : CheckpointSummary) : String := c.name

/-! ### Template engine (modelled from the spec)

The spec assumes a generic template evaluator as an external capability:
dotted field access on a context value, a custom `json` function, and
verbatim error strings for unknown functions.  The model below covers the
constructs exercised by the repository's formats and golden tests. -/

/-- One parsed template item: literal text, a field reference, the `json`
pipeline function applied to the whole context or to one field, or the
`nil` keyword (which the evaluator rejects at execution). -/
inductive TItem where
  | lit : Char → TItem
  | field : String → TItem
  | jsonAll : TItem
  | jsonField : String → TItem
  | nilAct : TItem
deriving DecidableEq

/-- Split a list of characters at the first space, returning the first
word and the remainder (spaces stripped from the front of the remainder
by the caller). -/
def firstWord : List Char → List Char × List Char
  | [] => ([], [])
  | c :: rest =>
    if c = ' ' then ([], rest)
    else
      let (w, r) := firstWord rest
      (c :: w, r)

/-- Modelled from the spec: interpretation of the text of one template
action.  A leading dot is a field reference; `json` applied to `.` or to a
field is the JSON fallback; `nil` is accepted at parse time; any other
leading word is an unknown function and yields the evaluator's verbatim
parse error naming that function. -/
def interpretAction (s : String) : Except String TItem :=
  match trimSpaces s.data with
  | '.' :: rest => .ok (.field (String.mk rest))
  | cs =>
    let (w, r) := firstWord cs
    if String.mk w = "json" then
      match trimSpaces r with
      | ['.'] => .ok .jsonAll
      | '.' :: rest => .ok (.jsonField (String.mk rest))
      | _ => .error ("template parsing error: unexpected json argument")
    else if String.mk w = "nil" ∧ r = [] then .ok .nilAct
    else
      .error ("template parsing error: template: :1: function \"" ++
        String.mk w ++ "\" not defined")

/-- Modelled from the spec: scanner for the template text.  Outside an
action, characters are literals and `\x7b\x7b` opens an action; inside an
action, characters accumulate until `\x7d\x7d` closes it.  Structural on a
fuel argument so that the definition evaluates by kernel reduction. -/
def scanTemplate (fuel : Nat) (cs : List Char) (inAction : Bool)
    (acc : List Char) : Except String (List TItem) :=
  match fuel with
  | 0 => .error ("template parsing error: out of fuel")
  | fuel + 1 =>
    match cs, inAction with
    | [], false => .ok []
    | [], true => .error ("template parsing error: unclosed action")
    | '{' :: '{' :: rest, false => scanTemplate fuel rest true []
    | '}' :: '}' :: rest, true => do
      let item ← interpretAction (String.mk acc.reverse)
      let t ← scanTemplate fuel rest false []
      .ok (item :: t)
    | c :: rest, false => do
      let t ← scanTemplate fuel rest false []
      .ok (.lit c :: t)
    | c :: rest, true => scanTemplate fuel rest true (c :: acc)

/-- Modelled from the spec: parse a template string into items, or return
the evaluator's verbatim error. -/
def parseTemplate (s : String) : Except String (List TItem) :=
  scanTemplate (s.data.length + 1) s.data false []

/-- A rendered entity view: the ordered field table of one entity, mapping
each declared accessor name to its string-rendered value. -/
def FieldView := List (String × String)

/-- Minimal JSON string quoting for rendered field values. -/
def jsonQuote (s : String) : String :=
  "\"" ++ String.mk (s.data.flatMap fun c =>
    if c = '"' ∨ c = '\\' then ['\\', c] else [c]) ++ "\""

/-- Modelled from the spec: the `json .` fallback serializes the mapping
from every declared accessor name to its string-rendered value. -/
def jsonObject (fields : FieldView) : String :=
  "\x7b" ++ joinWith ","
    (fields.map fun kv => jsonQuote kv.1 ++ ":" ++ jsonQuote kv.2) ++ "\x7d"

/-- Modelled from the spec: evaluate one template item against an entity's
field table. -/
def execItem (fields : FieldView) : TItem → Except String String
  | .lit c => .ok (String.mk [c])
  | .field name =>
    match fields.lookup name with
    | some v => .ok v
    | none =>
      .error ("template parsing error: template: :1: can't evaluate field " ++
        name)
  | .jsonAll => .ok (jsonObject fields)
  | .jsonField name =>
    match fields.lookup name with
    | some v => .ok (jsonQuote v)
    | none =>
      .error ("template parsing error: template: :1: can't evaluate field " ++
        name)
  | .nilAct =>
    .error ("template parsing error: template: :1:2: executing \"\" at <nil>: nil is not a command")

/-- Modelled from the spec: evaluate a whole template against an entity's
field table, concatenating the rendered items. -/
def execTemplate (fields : FieldView) : List TItem → Except String String
  | [] => .ok ""
  | i :: rest => do
    let s ← execItem fields i
    let t ← execTemplate fields rest
    .ok (s ++ t)

/-- Modelled from the spec: render the entity rows, each terminated by a
newline; the first evaluation failure aborts the whole call. -/
def renderRows (tmpl : List TItem) : List FieldView → Except String String
  | [] => .ok ""
  | v :: rest => do
    let r ← execTemplate v tmpl
    let rs ← renderRows tmpl rest
    .ok (r ++ "\n" ++ rs)

/-- Right-pad a string with spaces to the given width. -/
def padTo (s : String) (w : Nat) : String :=
  s ++ String.mk (List.replicate (w - s.length) ' ')

/-- Width of column `j` over all lines: the longest tab-terminated cell in
that column (a line's final cell does not participate). -/
def colWidth (rows : List (List String)) (j : Nat) : Nat :=
  rows.foldl
    (fun acc cells =>
      if j + 1 < cells.length then max acc ((cells.getD j "").length) else acc)
    0

/-- Pad every tab-terminated cell of one line to its column's width (the
larger of the minimum width 10 and the cell maximum plus padding 3); the
final cell is appended unchanged. -/
def padLine (rows : List (List String)) (cells : List String) : String :=
  joinWith "" ((cells.dropLast.enum.map fun cj =>
    padTo cj.2 (max 10 (colWidth rows cj.1 + 3))) ++
    [(cells.getLastD "")])

/-- Split a list of characters on a separator character; the result always
has one more group than there are separators. -/
def splitOnChar (sep : Char) : List Char → List (List Char)
  | [] => [[]]
  | c :: rest =>
    let r := splitOnChar sep rest
    if c = sep then [] :: r
    else
      match r with
      | [] => [[c]]
      | g :: gs => (c :: g) :: gs

/-- Modelled from the spec: the table layout's column aligner.  Lines are
split into tab-separated cells; tab-terminated cells are padded to a
common column width; lines without tabs pass through unchanged. -/
def tabAlign (s : String) : String :=
  let lines := splitOnChar '\n' s.data
  let rows := lines.map fun l => (splitOnChar '\t' l).map String.mk
  joinWith "\n" (rows.map (padLine rows))

/-- Replace the two-character escape sequences backslash-t and backslash-n
by a tab and a newline, as the render context's pre-formatting step does. -/
def replaceEscapes : List Char → List Char
  | [] => []
  | '\\' :: 't' :: rest => '\t' :: replaceEscapes rest
  | '\\' :: 'n' :: rest => '\n' :: replaceEscapes rest
  | c :: rest => c :: replaceEscapes rest

/-- The result of one render pass: the bytes written to the sink and the
error surfaced to the caller, if any.  On error nothing is written (the
render context buffers rows and flushes only on success). -/
structure WriteResult where
  output : String
  error : Option String
deriving DecidableEq

/-- Modelled from the spec: the render context's `Write`.  The format is a
table layout when it starts with the table alias; the table prefix is
stripped and escapes replaced; a parse failure returns the error with no
output; otherwise every entity row is rendered in input order, and for the
table layout a header line (the template evaluated against the header
mapping) is emitted first and the whole block passes through the column
aligner.  The quiet flag does not reach this function: quiet is resolved
into the format string beforehand. -/
def contextWrite (format : String) (header : FieldView)
    (views : List FieldView) : WriteResult :=
  let isTab := List.isPrefixOf tableFormatKey.data format.data
  let contents :=
    String.mk (replaceEscapes (trimSpaces
      (if isTab then format.data.drop 5 else format.data)))
  match parseTemplate contents with
  | .error e => ⟨"", some e⟩
  | .ok tmpl =>
    match renderRows tmpl views with
    | .error e => ⟨"", some e⟩
    | .ok rows =>
      if isTab then
        match execTemplate header tmpl with
        | .error e => ⟨"", some e⟩
        | .ok h => ⟨tabAlign (h ++ "\n" ++ rows), none⟩
      else ⟨rows, none⟩

/-! ### Network formatter (modelled from the spec; behaviour pinned by the
golden tests that are part of the sources) -/

/-- `network.Summary`: the fields read by the network accessors.  The
creation time is carried in its rendered form, since the accessor only
ever stringifies it. -/
structure NetworkSummary where
  id : String
  name : String
  driver : String
  scope : String
  enableIPv4 : Bool
  enableIPv6 : Bool
  internal : Bool
  labels : List (String × String)
  created : String
deriving DecidableEq

/-- Modelled from the spec: the network formatter's default table format. -/
def defaultNetworkTableFormat : String :=
  "table \x7b\x7b.ID\x7d\x7d\t\x7b\x7b.Name\x7d\x7d\t\x7b\x7b.Driver\x7d\x7d\t\x7b\x7b.Scope\x7d\x7d"

/-- Modelled from the spec: the network formatter's raw-layout template
(literal two-character backslash-n sequences). -/
def rawNetworkFormat : String :=
  "network_id: \x7b\x7b.ID\x7d\x7d\\nname: \x7b\x7b.Name\x7d\x7d\\ndriver: \x7b\x7b.Driver\x7d\x7d\\nscope: \x7b\x7b.Scope\x7d\x7d\\n"

/-- Modelled from the spec: the network formatter's raw-layout quiet
template. -/
def rawNetworkQuietFormat : String := "network_id: \x7b\x7b.ID\x7d\x7d"

/-- Modelled from the spec: the network formatter's `NewFormat`, mapping
the table alias to the default table format (ID-only when quiet), the raw
alias to the raw block (ID-only line when quiet), and every other source
string verbatim. -/
def networkNewFormat (source : String) (quiet : Bool) : String :=
  if source = tableFormatKey then
    if quiet then defaultQuietFormat else defaultNetworkTableFormat
  else if source = rawFormatKey then
    if quiet then rawNetworkQuietFormat else rawNetworkFormat
  else source

/-- `networkContext.ID` (modelled from the spec): the identifier, truncated
when the truncation flag is set. -/
def netID (trunc : Bool) (n : NetworkSummary) : String :=
  if trunc then truncateID n.id else n.id

/-- `networkContext.Labels` (modelled from the spec): `key=value` pairs in
the insertion order of the underlying mapping, comma-joined. -/
def netLabels (n : NetworkSummary) : String :=
  joinWith "," (n.labels.map fun kv => kv.1 ++ "=" ++ kv.2)

/-- Render a boolean as the literal lowercase string. -/
def boolString (b : Bool) : String := if b then "true" else "false"

/-- The declared accessor set of the network entity view, in declaration
order. -/
def networkAccessorNames : List String :=
  ["ID", "Name", "Driver", "Scope", "IPv4", "IPv6", "Internal", "Labels",
   "CreatedAt"]

/-- The network entity view's field table: every declared accessor name
paired with its string-rendered value. -/
def networkFieldTable (trunc : Bool) (n : NetworkSummary) : FieldView :=
  [("ID", netID trunc n), ("Name", n.name), ("Driver", n.driver),
   ("Scope", n.scope), ("IPv4", boolString n.enableIPv4),
   ("IPv6", boolString n.enableIPv6), ("Internal", boolString n.internal),
   ("Labels", netLabels n), ("CreatedAt", n.created)]

/-- Modelled from the spec: `formatter.MarshalJSON`'s mapping (missing
from the sources) from every declared accessor name to its string-rendered
value, built by consulting the entity view's accessor set. -/
def networkMarshalMap (trunc : Bool) (n : NetworkSummary) : FieldView :=
  networkAccessorNames.filterMap fun nm =>
    ((networkFieldTable trunc n).lookup nm).map fun v => (nm, v)

/-- The network entity view's header mapping. -/
def networkHeaderTable : FieldView :=
  [("ID", "NETWORK ID"), ("Name", "NAME"), ("Driver", "DRIVER"),
   ("Scope", "SCOPE"), ("IPv4", "IPV4"), ("IPv6", "IPV6"),
   ("Internal", "INTERNAL"), ("Labels", "LABELS"),
   ("CreatedAt", "CREATED AT")]

/-- The network formatter's `FormatWrite`: render every network through
the render context with the network entity view. -/
def writeNetworks (format : String) (trunc : Bool)
    (networks : List NetworkSummary) : WriteResult :=
  contextWrite format networkHeaderTable (networks.map (networkFieldTable trunc))

/-- The full network rendering pipeline: resolve the requested format with
the quiet flag, then write. -/
def renderNetworks (source : String) (quiet trunc : Bool)
    (networks : List NetworkSummary) : WriteResult :=
  writeNetworks (networkNewFormat source quiet) trunc networks

/-- The checkpoint entity view's field table. -/
def checkpointFieldTable (c : CheckpointSummary) : FieldView :=
  [("Name", checkpointName c)]

/-- The declared accessor set of the checkpoint entity view. -/
def checkpointAccessorNames : List String := ["Name"]

/-- Modelled from the spec: the checkpoint `MarshalJSON` mapping, built
from the checkpoint view's accessor set. -/
def checkpointMarshalMap (c : CheckpointSummary) : FieldView :=
  checkpointAccessorNames.filterMap fun nm =>
    ((checkpointFieldTable c).lookup nm).map fun v => (nm, v)

/-! ### `service ps` (from the sources) -/

/-- `psOptions` from the `service ps` command. -/
structure PsOptions where
  services : List String
  quiet : Bool
  noResolve : Bool
  noTrunc : Bool
  format : String
deriving DecidableEq

/-- The render parameters `runPS` passes to `task.Print`: the resolved
format string, the quiet flag, and the truncation flag (`!options.noTrunc`
after the quiet override).  `task.DefaultFormat` (missing from the
sources) is represented by the caller-supplied `defaultFormat`, the
configured default for the (possibly quiet) task listing. -/
structure RenderParams where
  format : String
  trunc : Bool
  quiet : Bool
deriving DecidableEq

/-- The option-resolution fragment of `runPS` (between the task listing
and the call to `task.Print`): substitute the default format when none was
requested, and force `noTrunc` to true when quiet was requested. -/
def resolvePS (options : PsOptions) (defaultFormat : String) : RenderParams :=
  let format := if options.format.length = 0 then defaultFormat else options.format
  let options :=
    if options.quiet then { options with noTrunc := true } else options
  ⟨format, !options.noTrunc, options.quiet⟩

/-- One service as consulted by `createFilter`: its identifier and its
`Spec.Annotations.Name`, flattened. -/
structure SwarmService where
  id : String
  name : String
deriving DecidableEq

/-- The first service of the ID-filtered list whose full identifier equals
the requested name (the first inner loop of `createFilter`). -/
def findByID (svc : String) : List SwarmService → Option SwarmService
  | [] => none
  | s :: rest => if s.id = svc then some s else findByID svc rest

/-- The first service of the name-filtered list whose name equals the
requested name (the second inner loop of `createFilter`). -/
def findByName (svc : String) : List SwarmService → Option SwarmService
  | [] => none
  | s :: rest => if s.name = svc then some s else findByName svc rest

/-- The ID-prefix scan of `createFilter`: remembers the first service whose
identifier has the requested name as a prefix and fails on a second
match. -/
def prefixScan (svc : String) (found : Option String) :
    List SwarmService → Except String (Option String)
  | [] => .ok found
  | s :: rest =>
    if List.isPrefixOf svc.data s.id.data then
      match found with
      | some _ =>
        .error ("multiple services found with provided prefix: " ++ svc)
      | none => prefixScan svc (some s.id) rest
    else prefixScan svc found rest

/-- The body of `createFilter`'s labelled loop for one requested name:
exact ID match, then exact name match, then unique ID-prefix match;
`some` is a service identifier to add to the filter, `none` records the
name as not found. -/
def processService (svc : String) (byID byName : List SwarmService) :
    Except String (Option String) :=
  match findByID svc byID with
  | some s => .ok (some s.id)
  | none =>
    match findByName svc byName with
    | some s => .ok (some s.id)
    | none => prefixScan svc none byID

/-- `createFilter`'s loop over the requested names, threading the filter
additions, the match count and the not-found messages. -/
def createFilterLoop (byID byName : List SwarmService) :
    List String → List String → Nat → List String →
    Except String (List String × Nat × List String)
  | [], filter, count, notfound => .ok (filter, count, notfound)
  | svc :: rest, filter, count, notfound =>
    match processService svc byID byName with
    | .error e => .error e
    | .ok (some sid) =>
      createFilterLoop byID byName rest (filter ++ [sid]) (count + 1) notfound
    | .ok none =>
      createFilterLoop byID byName rest filter count
        (notfound ++ ["no such service: " ++ svc])

/-- `createFilter` (its pure matching core): given the requested names, the
two service lists returned by the engine for the ID and name filters, and
the pre-existing filter entries, produce the final filter additions and
the not-found messages, or an error.  When no requested name matched any
service the not-found messages are joined into an error. -/
def createFilter (services : List String) (byID byName : List SwarmService)
    (filter0 : List String) : Except String (List String × List String) :=
  match createFilterLoop byID byName services filter0 0 [] with
  | .error e => .error e
  | .ok (filter, count, notfound) =>
    if count = 0 then .error (joinWith "\n" notfound)
    else .ok (filter, notfound)

/-- The claim's statement of the per-name matching precedence, written
from its words: exact ID match first, then exact name match, then unique
ID-prefix match; an ambiguous prefix is an error, no match is a not-found
record. -/
def matchPrecedenceSpec (svc : String) (byID byName : List SwarmService) :
    Except String (Option String) :=
  match byID.find? (fun s => s.id = svc) with
  | some s => .ok (some s.id)
  | none =>
    match byName.find? (fun s => s.name = svc) with
    | some s => .ok (some s.id)
    | none =>
      match byID.filter (fun s => List.isPrefixOf svc.data s.id.data) with
      | [] => .ok none
      | [s] => .ok (some s.id)
      | _ =>
        .error ("multiple services found with provided prefix: " ++ svc)

/-! ### Helper lemmas -/

theorem data_append (a b : String) : (a ++ b).data = a.data ++ b.data := by
  cases a
  cases b
  rfl

theorem length_append (a b : String) : (a ++ b).length = a.length + b.length := by
  cases a
  cases b
  simp [String.length, String.append]

theorem pos_length_of_ne_empty (s : String) (h : s ≠ "") : 0 < s.length := by
  cases s with
  | mk data =>
    cases data with
    | nil => exact absurd rfl h
    | cons c cs => simp [String.length]

theorem ellipsis_pos (s : String) (h : s ≠ "") : 0 < (ellipsis s maxErrLength).length := by
  unfold ellipsis
  split
  · exact pos_length_of_ne_empty s h
  · rw [length_append]
    refine Nat.lt_of_lt_of_le ?_ (Nat.le_add_left _ _)
    decide

/-! ### Model validation against the golden tests of the sources -/

/-- The two networks of the source's golden render test. -/
def testNet1 : NetworkSummary :=
  ⟨"networkID1", "foobar_baz", "foo", "local", false, false, false, [],
   "2016-01-01 00:00:00 +0000 UTC"⟩

/-- The second network of the source's golden render test. -/
def testNet2 : NetworkSummary :=
  ⟨"networkID2", "foobar_bar", "bar", "local", false, false, false, [],
   "2017-01-01 00:00:00 +0000 UTC"⟩

/-- The modelled engine reproduces the source's golden table output,
including the column alignment. -/
theorem golden_table_output :
    renderNetworks tableFormatKey false false [testNet1, testNet2] =
      ⟨"NETWORK ID   NAME         DRIVER    SCOPE\nnetworkID1   foobar_baz   foo       local\nnetworkID2   foobar_bar   bar       local\n",
       none⟩ := by
  decide

/-- The modelled engine reproduces the source's golden raw output, with a
blank line after every record. -/
theorem golden_raw_output :
    renderNetworks rawFormatKey false false [testNet1, testNet2] =
      ⟨"network_id: networkID1\nname: foobar_baz\ndriver: foo\nscope: local\n\nnetwork_id: networkID2\nname: foobar_bar\ndriver: bar\nscope: local\n\n",
       none⟩ := by
  decide

/-- The modelled engine reproduces the source's golden custom-template
output. -/
theorem golden_custom_output :
    renderNetworks ("\x7b\x7b.Name\x7d\x7d \x7b\x7b.CreatedAt\x7d\x7d") false false
        [testNet1, testNet2] =
      ⟨"foobar_baz 2016-01-01 00:00:00 +0000 UTC\nfoobar_bar 2017-01-01 00:00:00 +0000 UTC\n",
       none⟩ := by
  decide

/-! ### Claim C3 -/

/-- C3 (counterexample): the checkpoint format resolver does not map the
reserved alias "raw" to a per-field key: value block template — it returns
the string "raw" verbatim, a string that contains no template action at
all. -/
theorem claim3_counterexample :
    checkpointNewFormat ("raw") = "raw" ∧
      ("raw" : String).data.contains '\x7b' = false := by
  decide

/-- C3 (amended): `NewTaskFormat` maps "table" to the full default task
table template (the ID-only quiet default when quiet), maps "raw" to a
per-field key: value block (the ID-only block when quiet) and returns any
other source string verbatim; the checkpoint resolver `NewFormat` takes no
quiet flag and maps only "table" to its default "table \x7b\x7b.Name\x7d\x7d",
returning every other source string — including "raw" — verbatim. -/
theorem claim3_format_resolvers :
    (∀ quiet, NewTaskFormat tableFormatKey quiet =
        if quiet then defaultQuietFormat else defaultTaskTableFormat) ∧
    (∀ quiet, NewTaskFormat rawFormatKey quiet =
        if quiet then rawTaskQuietFormat else rawTaskFormat) ∧
    (∀ source quiet, source ≠ tableFormatKey → source ≠ rawFormatKey →
        NewTaskFormat source quiet = source) ∧
    checkpointNewFormat tableFormatKey = defaultCheckpointFormat ∧
    (∀ source, source ≠ tableFormatKey → checkpointNewFormat source = source) := by
  refine ⟨fun quiet => by simp [NewTaskFormat],
          fun quiet => by simp [NewTaskFormat, tableFormatKey, rawFormatKey],
          fun source quiet h1 h2 => by simp [NewTaskFormat, h1, h2],
          by simp [checkpointNewFormat],
          fun source h => by simp [checkpointNewFormat, h]⟩

/-- C3 (witness): the amended resolver behaviour at concrete inputs,
including a custom template returned verbatim by both resolvers. -/
theorem claim3_witness :
    NewTaskFormat tableFormatKey true = "\x7b\x7b.ID\x7d\x7d" ∧
    NewTaskFormat ("\x7b\x7b.Name\x7d\x7d") false = "\x7b\x7b.Name\x7d\x7d" ∧
    checkpointNewFormat ("\x7b\x7b.Name\x7d\x7d") = "\x7b\x7b.Name\x7d\x7d" := by
  refine ⟨(claim3_format_resolvers.1 true).trans (by decide),
          claim3_format_resolvers.2.2.1 ("\x7b\x7b.Name\x7d\x7d") false
            (by decide) (by decide),
          claim3_format_resolvers.2.2.2.2 ("\x7b\x7b.Name\x7d\x7d") (by decide)⟩

/-! ### Claim C5 -/

/-- C5 (counterexample): with quiet requested and no-truncate not
requested, `runPS` passes `trunc = false` to the task printer — truncation
is forced off, not on. -/
theorem claim5_counterexample :
    (resolvePS ⟨["web"], true, false, false, ""⟩ tableFormatKey).trunc = false := by
  decide

/-- C5 (amended): for every invocation of the service ps command, if quiet
is requested then the no-truncate flag is overridden to true before
rendering, so the truncation argument passed to the task printer is false
— truncation is forced off — regardless of any separately requested
truncation flag; an empty requested format is replaced by the kind's
default. -/
theorem claim5_quiet_forces_no_trunc :
    (∀ options : PsOptions, ∀ defaultFormat, options.quiet = true →
        (resolvePS options defaultFormat).trunc = false) ∧
    (∀ options : PsOptions, ∀ defaultFormat,
        (resolvePS options defaultFormat).format =
          if options.format.length = 0 then defaultFormat else options.format) := by
  constructor
  · intro options defaultFormat h
    simp [resolvePS, h]
  · intro options defaultFormat
    rfl

/-- C5 (witness): concrete invocations of the resolution fragment. -/
theorem claim5_witness :
    (resolvePS ⟨["web"], true, false, true, ""⟩ tableFormatKey).trunc = false ∧
    (resolvePS ⟨["web"], true, false, false, ("\x7b\x7b.ID\x7d\x7d")⟩
        tableFormatKey).format = "\x7b\x7b.ID\x7d\x7d" := by
  refine ⟨claim5_quiet_forces_no_trunc.1 ⟨["web"], true, false, true, ""⟩
            tableFormatKey rfl,
          (claim5_quiet_forces_no_trunc.2 ⟨["web"], true, false, false,
            ("\x7b\x7b.ID\x7d\x7d")⟩ tableFormatKey).trans (by decide)⟩

/-! ### Claim C6 -/

/-- C6: the `Error` accessor returns the empty string when the task's
error message is empty; otherwise it returns the message wrapped in double
quotes, where the message is first ellipsized at the fixed maximum length
of 30 characters when the truncate flag is set. -/
theorem claim6_error_accessor :
    ∀ c : TaskCtx,
      (c.task.status.err = "" → taskError c = "") ∧
      (c.task.status.err ≠ "" →
        taskError c =
          "\"" ++
            (if c.trunc then ellipsis c.task.status.err maxErrLength
             else c.task.status.err) ++ "\"") := by
  intro c
  constructor
  · intro h
    simp [taskError, h, ellipsis]
  · intro h
    have hpos : 0 < (if c.trunc then ellipsis c.task.status.err maxErrLength
        else c.task.status.err).length := by
      split
      · exact ellipsis_pos _ h
      · exact pos_length_of_ne_empty _ h
    unfold taskError
    simp only []
    split
    · split
      · rfl
      · rename_i hc hlen
        exact absurd (by simpa [hc] using hpos) hlen
    · split
      · rfl
      · rename_i hc hlen
        simp only [Bool.not_eq_true] at hc
        exact absurd (by simpa [hc] using hpos) hlen

/-- C6 (witness): the accessor at a concrete empty and a concrete
non-empty, truncated error message. -/
theorem claim6_witness :
    taskError ⟨true, ⟨"task1", "running", ⟨0, "running", "", ⟨[]⟩⟩⟩, "n", "d"⟩ = "" ∧
    taskError ⟨true, ⟨"task1", "running", ⟨0, "running", "boom", ⟨[]⟩⟩⟩, "n", "d"⟩ =
      "\"boom\"" := by
  refine ⟨(claim6_error_accessor _).1 rfl,
          ((claim6_error_accessor
            ⟨true, ⟨"task1", "running", ⟨0, "running", "boom", ⟨[]⟩⟩⟩, "n", "d"⟩).2
            (by decide)).trans (by decide)⟩

/-! ### Claim C7 -/

/-- C7: truncation is idempotent on already-short inputs: an identifier at
or under the short-ID prefix length passes through `TruncateID` — and
hence through the `ID` accessor with truncation on — unchanged, and an
error message at or under the 30-character threshold passes through the
ellipsis step unchanged. -/
theorem claim7_truncation_idempotent :
    (∀ id : String, id.length ≤ shortIDLength → truncateID id = id) ∧
    (∀ c : TaskCtx, c.trunc = true → c.task.id.length ≤ shortIDLength →
        taskID c = c.task.id) ∧
    (∀ s : String, s.length ≤ maxErrLength → ellipsis s maxErrLength = s) := by
  refine ⟨fun id h => ?_, fun c hc h => ?_, fun s h => ?_⟩
  · simp [truncateID, Nat.not_lt_of_le h]
  · simp [taskID, hc, truncateID, Nat.not_lt_of_le h]
  · simp [ellipsis, h]

/-- C7 (witness): idempotence at concrete short inputs. -/
theorem claim7_witness :
    truncateID ("abcdef") = "abcdef" ∧
    taskID ⟨true, ⟨"abcdef", "running", ⟨0, "running", "", ⟨[]⟩⟩⟩, "n", "d"⟩ =
      "abcdef" ∧
    ellipsis ("short error") maxErrLength = "short error" := by
  refine ⟨claim7_truncation_idempotent.1 ("abcdef") (by decide),
          claim7_truncation_idempotent.2.1 _ rfl (by decide),
          claim7_truncation_idempotent.2.2 ("short error") (by decide)⟩

/-! ### Claim C8 -/

/-- C8: the `Ports` accessor joins one "*:published->target/protocol"
entry per port, comma-separated, in exactly the order the ports appear in
the task's port status (never re-sorted), and returns the empty string for
an empty port list. -/
theorem claim8_ports_accessor :
    ∀ c : TaskCtx,
      (c.task.status.portStatus.ports = [] → taskPorts c = "") ∧
      taskPorts c =
        joinWith ","
          (c.task.status.portStatus.ports.map fun p =>
            "*:" ++ toString p.publishedPort ++ "->" ++ toString p.targetPort ++
              "/" ++ p.protocol) := by
  intro c
  constructor
  · intro h
    simp [taskPorts, h]
  · unfold taskPorts portEntry
    split
    · rename_i h
      simp [h, joinWith]
    · rfl

/-- C8 (witness): the accessor at an empty and at a two-element port list,
checking rendering and order. -/
theorem claim8_witness :
    taskPorts ⟨false, ⟨"t", "running", ⟨0, "running", "", ⟨[]⟩⟩⟩, "n", "d"⟩ = "" ∧
    taskPorts ⟨false, ⟨"t", "running",
        ⟨0, "running", "", ⟨[⟨"tcp", 80, 8080⟩, ⟨"udp", 53, 5353⟩]⟩⟩⟩, "n", "d"⟩ =
      "*:8080->80/tcp,*:5353->53/udp" := by
  refine ⟨(claim8_ports_accessor _).1 rfl,
          ((claim8_ports_accessor _).2).trans (by decide)⟩

/-! ### More string helpers for the render-pipeline claims -/

/-- Concatenation of a list of strings in order. -/
def concatStrings : List String → String
  | [] => ""
  | s :: rest => s ++ concatStrings rest

theorem str_append_empty (s : String) : s ++ "" = s := by
  obtain ⟨d⟩ := s
  show String.mk (d ++ []) = String.mk d
  rw [List.append_nil]

theorem str_append_assoc (a b c : String) : a ++ b ++ c = a ++ (b ++ c) := by
  obtain ⟨x⟩ := a
  obtain ⟨y⟩ := b
  obtain ⟨z⟩ := c
  show String.mk (x ++ y ++ z) = String.mk (x ++ (y ++ z))
  rw [List.append_assoc]

theorem str_append_left_cancel {p a b : String} (h : p ++ a = p ++ b) : a = b := by
  obtain ⟨x⟩ := p
  obtain ⟨y⟩ := a
  obtain ⟨z⟩ := b
  have h2 : x ++ y = x ++ z := congrArg String.data h
  exact congrArg String.mk (List.append_cancel_left h2)

/-- Evaluating a run of literal items yields the literal text. -/
theorem execTemplate_litRun (v : FieldView) :
    ∀ cs : List Char, execTemplate v (cs.map TItem.lit) = .ok (String.mk cs) := by
  intro cs
  induction cs with
  | nil => rfl
  | cons c rest ih =>
    show (do
      let s ← execItem v (.lit c)
      let t ← execTemplate v (rest.map TItem.lit)
      Except.ok (s ++ t)) = _
    rw [ih]
    rfl

/-- The empty string is a left unit for append. -/
theorem str_empty_append (s : String) : "" ++ s = s := by
  obtain ⟨d⟩ := s
  rfl

/-- Evaluating the concatenation of two templates concatenates the
renderings. -/
theorem execTemplate_append (v : FieldView) :
    ∀ t1 t2 : List TItem,
      execTemplate v (t1 ++ t2) = (do
        let a ← execTemplate v t1
        let b ← execTemplate v t2
        Except.ok (a ++ b)) := by
  intro t1 t2
  induction t1 with
  | nil =>
    show execTemplate v t2 = _
    cases h : execTemplate v t2 with
    | error e => rfl
    | ok b =>
      show Except.ok b = Except.ok ("" ++ b)
      rw [str_empty_append]
  | cons i rest ih =>
    show (do
      let s ← execItem v i
      let t ← execTemplate v (rest ++ t2)
      Except.ok (s ++ t)) = _
    rw [ih,
      show execTemplate v (i :: rest) = (do
        let s ← execItem v i
        let t ← execTemplate v rest
        Except.ok (s ++ t)) from rfl]
    cases hi : execItem v i with
    | error e => rfl
    | ok s =>
      cases hr : execTemplate v rest with
      | error e => rfl
      | ok a =>
        cases ht : execTemplate v t2 with
        | error e => rfl
        | ok b =>
          show Except.ok (s ++ (a ++ b)) = Except.ok (s ++ a ++ b)
          rw [str_append_assoc]

/-- Rows render as the concatenation of the per-entity renderings, each
newline-terminated, whenever every row renders successfully with a known
value. -/
theorem renderRows_of_each {α : Type} (tmpl : List TItem) (view : α → FieldView)
    (f : α → String) (hf : ∀ a, execTemplate (view a) tmpl = .ok (f a)) :
    ∀ entities : List α,
      renderRows tmpl (entities.map view) =
        .ok (concatStrings (entities.map fun a => f a ++ "\n")) := by
  intro entities
  induction entities with
  | nil => rfl
  | cons a rest ih =>
    show (do
      let r ← execTemplate (view a) tmpl
      let rs ← renderRows tmpl (rest.map view)
      Except.ok (r ++ "\n" ++ rs)) = _
    rw [hf a, ih]
    rfl

/-- Evaluating a single field reference looks the field up in the entity
view's accessor table. -/
theorem execTemplate_single_field (v : FieldView) (nm : String) :
    execTemplate v [TItem.field nm] =
      match v.lookup nm with
      | some w => .ok w
      | none =>
        .error ("template parsing error: template: :1: can't evaluate field " ++ nm) := by
  cases h : v.lookup nm with
  | some w =>
    show (do
      let s ← (match v.lookup nm with
                | some w => Except.ok w
                | none =>
                  Except.error
                    ("template parsing error: template: :1: can't evaluate field " ++ nm))
      let t ← execTemplate v []
      Except.ok (s ++ t)) = _
    rw [h]
    show Except.ok (w ++ "") = Except.ok w
    rw [str_append_empty]
  | none =>
    show (do
      let s ← (match v.lookup nm with
                | some w => Except.ok w
                | none =>
                  Except.error
                    ("template parsing error: template: :1: can't evaluate field " ++ nm))
      let t ← execTemplate v []
      Except.ok (s ++ t)) = _
    rw [h]
    rfl

/-- A render through a non-table format parses the format, renders the
rows and writes them with no header and no alignment. -/
theorem contextWrite_nontable (format : String) (header : FieldView)
    (views : List FieldView) (tmpl : List TItem) (rows : String)
    (hnt : List.isPrefixOf tableFormatKey.data format.data = false)
    (hp : parseTemplate (String.mk (replaceEscapes (trimSpaces format.data))) =
      .ok tmpl)
    (hr : renderRows tmpl views = .ok rows) :
    contextWrite format header views = ⟨rows, none⟩ := by
  unfold contextWrite
  simp only [hnt, Bool.false_eq_true, if_false, hp, hr]

/-! ### Claim C2 -/

/-- C2: for every list of entities and every quiet and truncation flag,
rendering with the template `\x7b\x7bInvalidFunction\x7d\x7d`, which
references a non-existent function, returns an error whose text contains
the literal function name, and zero bytes of entity-row output are
written. -/
theorem claim2_invalid_function :
    ∀ (networks : List NetworkSummary) (quiet trunc : Bool),
      renderNetworks ("\x7b\x7bInvalidFunction\x7d\x7d") quiet trunc networks =
        ⟨"", some ("template parsing error: template: :1: function \"InvalidFunction\" not defined")⟩ ∧
      ∃ pre post,
        ("template parsing error: template: :1: function \"InvalidFunction\" not defined" : String) =
          pre ++ "InvalidFunction" ++ post :=
  fun _ _ _ =>
    ⟨rfl, ⟨"template parsing error: template: :1: function \"", "\" not defined",
      by decide⟩⟩

/-! ### Claim C1 -/

/-- C1 (counterexample): with quiet requested, the inline-column table
template "table \x7b\x7b.Name\x7d\x7d" does not yield identifier-only
lines: over the golden test networks it writes a header line and the two
names, not the identifier-only, header-less output the claim requires. -/
theorem claim1_counterexample :
    renderNetworks ("table \x7b\x7b.Name\x7d\x7d") true false [testNet1, testNet2] =
      ⟨"NAME\nfoobar_baz\nfoobar_bar\n", none⟩ ∧
    (("NAME\nfoobar_baz\nfoobar_bar\n" : String) == "networkID1\nnetworkID2\n") =
      false := by
  decide

/-- The quiet table resolution renders one ID-only line per entity. -/
theorem execTemplate_id_only (trunc : Bool) (n : NetworkSummary) :
    execTemplate (networkFieldTable trunc n) [TItem.field "ID"] =
      .ok (netID trunc n) := by
  rw [execTemplate_single_field]
  rfl

/-- The quiet raw resolution renders one "network_id: " prefixed line per
entity. -/
theorem execTemplate_raw_quiet (trunc : Bool) (n : NetworkSummary) :
    execTemplate (networkFieldTable trunc n)
        (("network_id: ").data.map TItem.lit ++ [TItem.field "ID"]) =
      .ok ("network_id: " ++ netID trunc n) := by
  rw [execTemplate_append, execTemplate_litRun, execTemplate_id_only]
  rfl

/-- C1 (amended): with quiet requested, the bare "table" alias resolves to
the ID-only quiet format and rendering writes exactly one line per entity
containing only that entity's identifier, with no header; the bare "raw"
alias writes one "network_id: <identifier>" line per entity with no
header; every other format string (inline-column table templates and
custom templates included) is resolved verbatim, unaffected by the quiet
flag, and governs the output itself. -/
theorem claim1_quiet_rendering :
    (∀ (trunc : Bool) (networks : List NetworkSummary),
      renderNetworks tableFormatKey true trunc networks =
        ⟨concatStrings (networks.map fun n => netID trunc n ++ "\n"), none⟩) ∧
    (∀ (trunc : Bool) (networks : List NetworkSummary),
      renderNetworks rawFormatKey true trunc networks =
        ⟨concatStrings (networks.map fun n => "network_id: " ++ netID trunc n ++ "\n"),
         none⟩) ∧
    (∀ source quiet, source ≠ tableFormatKey → source ≠ rawFormatKey →
      networkNewFormat source quiet = source) := by
  refine ⟨fun trunc networks => ?_, fun trunc networks => ?_,
          fun source quiet h1 h2 => by simp [networkNewFormat, h1, h2]⟩
  · exact contextWrite_nontable defaultQuietFormat networkHeaderTable
      (networks.map (networkFieldTable trunc)) [TItem.field "ID"] _
      (by decide) rfl
      (renderRows_of_each _ _ _ (execTemplate_id_only trunc) networks)
  · exact contextWrite_nontable rawNetworkQuietFormat networkHeaderTable
      (networks.map (networkFieldTable trunc))
      (("network_id: ").data.map TItem.lit ++ [TItem.field "ID"]) _
      (by decide) rfl
      (renderRows_of_each _ _ _ (execTemplate_raw_quiet trunc) networks)

/-- C1 (witness): the amended behaviour at the golden test networks: the
quiet "table" alias gives exactly the identifier lines, the quiet "raw"
alias gives prefixed identifier lines, and a custom format string is
resolved verbatim under quiet. -/
theorem claim1_witness :
    renderNetworks tableFormatKey true false [testNet1, testNet2] =
      ⟨"networkID1\nnetworkID2\n", none⟩ ∧
    renderNetworks rawFormatKey true false [testNet1, testNet2] =
      ⟨"network_id: networkID1\nnetwork_id: networkID2\n", none⟩ ∧
    networkNewFormat ("\x7b\x7b.Name\x7d\x7d") true = "\x7b\x7b.Name\x7d\x7d" := by
  refine ⟨(claim1_quiet_rendering.1 false [testNet1, testNet2]).trans (by decide),
          (claim1_quiet_rendering.2.1 false [testNet1, testNet2]).trans (by decide),
          claim1_quiet_rendering.2.2 ("\x7b\x7b.Name\x7d\x7d") true (by decide)
            (by decide)⟩

/-! ### Claim C4 -/

/-- C4: for every entity and declared accessor name, the value stored
under that name in the mapping serialized by `json .` equals the string
the table/raw renderer produces for the same field on the same entity,
for the network view and for the checkpoint view — both are computed from
the same accessor table. -/
theorem claim4_json_single_source :
    (∀ (trunc : Bool) (n : NetworkSummary) (nm : String) (v : String),
      (networkMarshalMap trunc n).lookup nm = some v ↔
        execTemplate (networkFieldTable trunc n) [TItem.field nm] = .ok v) ∧
    (∀ (c : CheckpointSummary) (nm : String) (v : String),
      (checkpointMarshalMap c).lookup nm = some v ↔
        execTemplate (checkpointFieldTable c) [TItem.field nm] = .ok v) := by
  constructor
  · intro trunc n nm v
    rw [show networkMarshalMap trunc n = networkFieldTable trunc n from rfl,
        execTemplate_single_field]
    cases h : (networkFieldTable trunc n).lookup nm with
    | none => simp
    | some w => simp
  · intro c nm v
    rw [show checkpointMarshalMap c = checkpointFieldTable c from rfl,
        execTemplate_single_field]
    cases h : (checkpointFieldTable c).lookup nm with
    | none => simp
    | some w => simp

/-! ### Claim C9 -/

/-- C9 (counterexample): the `CurrentState` accessor's output for one and
the same task context differs between two render-time instants of the
ambient clock, so the duration is computed against the ambient clock
(`time.Since`) and not against any caller-supplied "now" reference — the
accessor's caller supplies no such reference. -/
theorem claim9_counterexample :
    taskCurrentState 1 ⟨false, ⟨"t1", "running", ⟨0, "running", "", ⟨[]⟩⟩⟩, "n", "d"⟩ =
      "Running 1 second ago" ∧
    taskCurrentState 7200
        ⟨false, ⟨"t1", "running", ⟨0, "running", "", ⟨[]⟩⟩⟩, "n", "d"⟩ =
      "Running 2 hours ago" ∧
    (("Running 1 second ago" : String) == "Running 2 hours ago") = false := by
  decide

/-- C9 (amended): the `CurrentState` accessor renders the task's state
followed by a human-relative duration of the form "<duration> ago", where
the duration is the ambient clock value at render time minus the task's
status timestamp (the source uses `time.Since`); consequently the output
varies with the render-time clock for a fixed task. -/
theorem claim9_current_state :
    (∀ (now : Int) (c : TaskCtx),
      taskCurrentState now c =
        prettyPrint c.task.status.state ++ " " ++
          asciiToLower (humanDuration (now - c.task.status.timestamp)) ++ " ago") ∧
    (∀ c : TaskCtx,
      taskCurrentState (c.task.status.timestamp + 1) c ≠
        taskCurrentState (c.task.status.timestamp + 7200) c) := by
  constructor
  · intro now c
    rfl
  · intro c h
    simp only [taskCurrentState] at h
    rw [show c.task.status.timestamp + 1 - c.task.status.timestamp = (1 : Int) by omega,
        show c.task.status.timestamp + 7200 - c.task.status.timestamp = (7200 : Int) by omega,
        show asciiToLower (humanDuration 1) = "1 second" from by decide,
        show asciiToLower (humanDuration 7200) = "2 hours" from by decide,
        str_append_assoc (prettyPrint c.task.status.state ++ " ") ("1 second") (" ago"),
        str_append_assoc (prettyPrint c.task.status.state ++ " ") ("2 hours") (" ago")]
        at h
    exact absurd (str_append_left_cancel h) (by decide)

/-- C9 (witness): the amended rendering at a concrete task and clock
value, and the clock dependence at a concrete task. -/
theorem claim9_witness :
    taskCurrentState 5 ⟨false, ⟨"t1", "running", ⟨0, "running", "", ⟨[]⟩⟩⟩, "n", "d"⟩ =
      "Running 5 seconds ago" ∧
    taskCurrentState (0 + 1)
        ⟨false, ⟨"t1", "running", ⟨0, "running", "", ⟨[]⟩⟩⟩, "n", "d"⟩ ≠
      taskCurrentState (0 + 7200)
        ⟨false, ⟨"t1", "running", ⟨0, "running", "", ⟨[]⟩⟩⟩, "n", "d"⟩ := by
  refine ⟨(claim9_current_state.1 5
      ⟨false, ⟨"t1", "running", ⟨0, "running", "", ⟨[]⟩⟩⟩, "n", "d"⟩).trans (by decide),
    claim9_current_state.2
      ⟨false, ⟨"t1", "running", ⟨0, "running", "", ⟨[]⟩⟩⟩, "n", "d"⟩⟩

/-! ### Claim C10 -/

/-- The first inner loop of `createFilter` is a `find?` over the
ID-filtered list. -/
theorem findByID_eq (svc : String) :
    ∀ l : List SwarmService, findByID svc l = l.find? (fun s => s.id = svc) := by
  intro l
  induction l with
  | nil => rfl
  | cons s rest ih =>
    by_cases h : s.id = svc
    · simp [findByID, List.find?, h]
    · simp [findByID, List.find?, h, ih]

/-- The second inner loop of `createFilter` is a `find?` over the
name-filtered list. -/
theorem findByName_eq (svc : String) :
    ∀ l : List SwarmService, findByName svc l = l.find? (fun s => s.name = svc) := by
  intro l
  induction l with
  | nil => rfl
  | cons s rest ih =>
    by_cases h : s.name = svc
    · simp [findByName, List.find?, h]
    · simp [findByName, List.find?, h, ih]

/-- With a match already recorded, the prefix scan succeeds exactly when
no further service matches the prefix. -/
theorem prefixScan_found (svc sid : String) :
    ∀ l : List SwarmService,
      prefixScan svc (some sid) l =
        if l.filter (fun s => List.isPrefixOf svc.data s.id.data) = [] then
          .ok (some sid)
        else .error ("multiple services found with provided prefix: " ++ svc) := by
  intro l
  induction l with
  | nil => simp [prefixScan]
  | cons s rest ih =>
    cases h : List.isPrefixOf svc.data s.id.data with
    | true => simp [prefixScan, h, List.filter_cons_of_pos]
    | false => simp [prefixScan, h, ih, List.filter_cons_of_neg]

/-- The prefix scan started with no recorded match agrees with the claim's
case analysis over the list of prefix matches. -/
theorem prefixScan_none_eq (svc : String) :
    ∀ l : List SwarmService,
      prefixScan svc none l =
        match l.filter (fun s => List.isPrefixOf svc.data s.id.data) with
        | [] => .ok none
        | [s] => .ok (some s.id)
        | _ => .error ("multiple services found with provided prefix: " ++ svc) := by
  intro l
  induction l with
  | nil => rfl
  | cons s rest ih =>
    cases h : List.isPrefixOf svc.data s.id.data with
    | true =>
      rw [show prefixScan svc none (s :: rest) = prefixScan svc (some s.id) rest
            by simp [prefixScan, h],
          prefixScan_found,
          show List.filter (fun s => svc.data.isPrefixOf s.id.data) (s :: rest) =
              s :: List.filter (fun s => svc.data.isPrefixOf s.id.data) rest
            from by simp [List.filter_cons, h]]
      cases hf : rest.filter (fun s => List.isPrefixOf svc.data s.id.data) with
      | nil => simp
      | cons x xs => simp
    | false =>
      rw [show prefixScan svc none (s :: rest) = prefixScan svc none rest
            by simp [prefixScan, h],
          ih,
          show List.filter (fun s => svc.data.isPrefixOf s.id.data) (s :: rest) =
              List.filter (fun s => svc.data.isPrefixOf s.id.data) rest
            from by simp [List.filter_cons, h]]

/-- The loop body of `createFilter` implements the claim's matching
precedence. -/
theorem processService_eq_spec (svc : String) (byID byName : List SwarmService) :
    processService svc byID byName = matchPrecedenceSpec svc byID byName := by
  unfold processService matchPrecedenceSpec
  rw [findByID_eq, findByName_eq]
  cases byID.find? (fun s => s.id = svc) with
  | some s => rfl
  | none =>
    cases byName.find? (fun s => s.name = svc) with
    | some s => rfl
    | none => exact prefixScan_none_eq svc byID

/-- When no requested name matches, the loop only accumulates not-found
messages. -/
theorem createFilterLoop_all_notfound (byID byName : List SwarmService) :
    ∀ services : List String,
      (∀ svc ∈ services, processService svc byID byName = .ok none) →
      ∀ filter nf,
        createFilterLoop byID byName services filter 0 nf =
          .ok (filter, 0, nf ++ services.map fun svc => "no such service: " ++ svc) := by
  intro services
  induction services with
  | nil =>
    intro _ filter nf
    simp [createFilterLoop]
  | cons svc rest ih =>
    intro hall filter nf
    have hhead : processService svc byID byName = .ok none :=
      hall svc (List.mem_cons_self svc rest)
    show (match processService svc byID byName with
          | .error e => Except.error e
          | .ok (some sid) =>
            createFilterLoop byID byName rest (filter ++ [sid]) (0 + 1) nf
          | .ok none =>
            createFilterLoop byID byName rest filter 0
              (nf ++ ["no such service: " ++ svc])) = _
    rw [hhead, ih (fun s hs => hall s (List.mem_cons_of_mem svc hs))
          filter (nf ++ ["no such service: " ++ svc])]
    simp

/-- C10: `createFilter` matches each requested name with the precedence
exact-ID, then exact-name, then unique ID-prefix; an ambiguous ID prefix
yields the error "multiple services found with provided prefix: <name>";
a name matching nothing is recorded as "no such service: <name>" in the
not-found list; and when no requested name matches any service the call
returns an error joining the not-found messages. -/
theorem claim10_create_filter :
    (∀ (svc : String) (byID byName : List SwarmService),
      processService svc byID byName = matchPrecedenceSpec svc byID byName) ∧
    (∀ (byID byName : List SwarmService) (f0 : List String)
        (services : List String),
      (∀ svc ∈ services, matchPrecedenceSpec svc byID byName = .ok none) →
      createFilter services byID byName f0 =
        .error (joinWith "\n" (services.map fun svc => "no such service: " ++ svc))) ∧
    (∀ (byID byName : List SwarmService) (f0 : List String) (s1 s2 sid : String),
      matchPrecedenceSpec s1 byID byName = .ok (some sid) →
      matchPrecedenceSpec s2 byID byName = .ok none →
      createFilter [s1, s2] byID byName f0 =
        .ok (f0 ++ [sid], ["no such service: " ++ s2])) := by
  refine ⟨processService_eq_spec, ?_, ?_⟩
  · intro byID byName f0 services hall
    have hall' : ∀ svc ∈ services, processService svc byID byName = .ok none :=
      fun svc hs => (processService_eq_spec svc byID byName).trans (hall svc hs)
    unfold createFilter
    rw [createFilterLoop_all_notfound byID byName services hall' f0 []]
    simp
  · intro byID byName f0 s1 s2 sid h1 h2
    have p1 : processService s1 byID byName = .ok (some sid) :=
      (processService_eq_spec s1 byID byName).trans h1
    have p2 : processService s2 byID byName = .ok none :=
      (processService_eq_spec s2 byID byName).trans h2
    unfold createFilter
    show (match (match processService s1 byID byName with
          | .error e => Except.error e
          | .ok (some sid) =>
            createFilterLoop byID byName [s2] (f0 ++ [sid]) (0 + 1) []
          | .ok none =>
            createFilterLoop byID byName [s2] f0 0
              (["no such service: " ++ s1])) with
          | .error e => Except.error e
          | .ok (filter, count, notfound) =>
            if count = 0 then Except.error (joinWith "\n" notfound)
            else Except.ok (filter, notfound)) = _
    rw [p1]
    show (match (match processService s2 byID byName with
          | .error e => Except.error e
          | .ok (some sid2) =>
            createFilterLoop byID byName [] (f0 ++ [sid] ++ [sid2]) (0 + 1 + 1) []
          | .ok none =>
            createFilterLoop byID byName [] (f0 ++ [sid]) (0 + 1)
              (["no such service: " ++ s2])) with
          | .error e => Except.error e
          | .ok (filter, count, notfound) =>
            if count = 0 then Except.error (joinWith "\n" notfound)
            else Except.ok (filter, notfound)) = _
    rw [p2]
    rfl

/-- C10 (witness): the filter behaviour at a concrete engine state: a
name match together with an unmatched name, and an all-unmatched request
list. -/
theorem claim10_witness :
    createFilter ["beta", "zzz"] [⟨"svcA1", "alpha"⟩, ⟨"svcA2", "beta"⟩]
        [⟨"svcA1", "alpha"⟩, ⟨"svcA2", "beta"⟩] [] =
      .ok (["svcA2"], ["no such service: zzz"]) ∧
    createFilter ["x", "y"] [⟨"svcA1", "alpha"⟩, ⟨"svcA2", "beta"⟩]
        [⟨"svcA1", "alpha"⟩, ⟨"svcA2", "beta"⟩] [] =
      .error ("no such service: x\nno such service: y") := by
  constructor
  · have h := claim10_create_filter.2.2
      [⟨"svcA1", "alpha"⟩, ⟨"svcA2", "beta"⟩]
      [⟨"svcA1", "alpha"⟩, ⟨"svcA2", "beta"⟩] [] ("beta") ("zzz") ("svcA2")
      rfl rfl
    exact h.trans rfl
  · have h := claim10_create_filter.2.1
      [⟨"svcA1", "alpha"⟩, ⟨"svcA2", "beta"⟩]
      [⟨"svcA1", "alpha"⟩, ⟨"svcA2", "beta"⟩] [] ["x", "y"]
      (by intro svc hs; fin_cases hs <;> rfl)
    exact h.trans rfl

end CliFmt

